import Mathlib

/-!
Verification of the qshot screen-capture component (src/src/capture.rs).

The source is a thin wrapper over six Win32 GDI primitives.  We embed it
shallowly: the GDI subsystem is a record of oracle functions (`OS`), every
operation of the component returns its result together with the list of GDI
calls it performed (`GdiCall`), machine integers are `Int` with explicit
32-bit wrap-around where Rust release-mode arithmetic wraps, and the
`as usize` cast is sign extension to 64 bits modelled on `Nat`.
-/

namespace Qshot

/-- Two-complement wrap-around of an integer into the i32 range
`[-2147483648, 2147483648)`; Rust release-mode i32 arithmetic wraps this way. -/
def wrap32 (x : Int) : Int :=
  (x + 2147483648) % 4294967296 - 2147483648

/-- The i32 multiplication `a * b` of the Rust source (release mode wraps). -/
def i32_mul (a b : Int) : Int := wrap32 (a * b)

/-- The Rust cast `x as usize` of an i32 value on a 64-bit target:
sign-extend and reinterpret as an unsigned 64-bit quantity. -/
def i32ToUsize (x : Int) : Nat := (x % 18446744073709551616).toNat

/-- `windows::Win32::Graphics::Gdi::BI_RGB` (uncompressed), numeric value 0. -/
def BI_RGB : Nat := 0

/-- `windows::Win32::Graphics::Gdi::RGBQUAD`. -/
structure RGBQUAD where
  rgbBlue : Nat
  rgbGreen : Nat
  rgbRed : Nat
  rgbReserved : Nat
deriving DecidableEq, Repr

/-- `windows::Win32::Graphics::Gdi::BITMAPINFOHEADER`; the two geometry
fields are i32 in the source, the rest are set to constants by `new`. -/
structure BITMAPINFOHEADER where
  biSize : Nat
  biWidth : Int
  biHeight : Int
  biPlanes : Nat
  biBitCount : Nat
  biCompression : Nat
  biSizeImage : Nat
  biXPelsPerMeter : Int
  biYPelsPerMeter : Int
  biClrUsed : Nat
  biClrImportant : Nat
deriving DecidableEq, Repr

/-- `windows::Win32::Graphics::Gdi::BITMAPINFO`: the header plus the
`bmiColors` array, which in the source is a single zeroed `RGBQUAD`. -/
structure BITMAPINFO where
  bmiHeader : BITMAPINFOHEADER
  bmiColors : RGBQUAD
deriving DecidableEq, Repr

/-- A raw Rust slice `&[u8]` built by `std::slice::from_raw_parts(ptr, len)`:
a base pointer and a length; `.len()` on the slice returns `len`. -/
structure Slice where
  ptr : Nat
  len : Nat
deriving DecidableEq, Repr

/-- `CaptureData`: the pixel slice and the owned native bitmap handle. -/
structure CaptureData where
  bits : Slice
  hbitmap : Nat
deriving DecidableEq, Repr

/-- `CaptureManager`: capture origin, extent, the two device contexts, the
window handle and the pixel-format descriptor, exactly the Rust fields. -/
structure CaptureManager where
  top_left : Int × Int
  wh : Int × Int
  dc : Nat
  dc_mem : Nat
  window_handle : Int
  bitmap_info : BITMAPINFO
deriving DecidableEq, Repr

/-- One GDI call performed by the component, with the arguments it passed.
The constant `SRCCOPY` raster-op argument of `BitBlt` is omitted because the
source always passes it. -/
inductive GdiCall where
  | getDC (hwnd : Int)
  | createCompatibleDC (dc : Nat)
  | createDIBSection (dc : Nat) (bi : BITMAPINFO)
  | selectObject (dcMem : Nat) (hbm : Nat)
  | bitBlt (dcMem : Nat) (x y w h : Int) (dc : Nat) (x1 y1 : Int)
  | releaseDC (hwnd : Int) (dc : Nat)
  | deleteDC (dcMem : Nat)
  | deleteObject (hbm : Nat)
deriving DecidableEq, Repr

/-- The failing call behind an error result.  The Rust source returns
`windows::core::Error` in every case (`from_win32()` after `GetDC`,
`CreateCompatibleDC` and `BitBlt` failures, and the error propagated by `?`
from `CreateDIBSection`); the constructor records which call failed, which
matches the error taxonomy of the spec. -/
inductive CaptureError where
  | acquisition
  | allocation
  | copy
deriving DecidableEq, Repr

/-- The GDI oracle: the outcome of every OS primitive the component calls.
`none` models an invalid handle or a failed call; `createDIBSection`
returns the bitmap handle and the raw pixel pointer it wrote through the
out-parameter; `selectObject` has its result ignored by the source, so it
is only logged. -/
structure OS where
  getDC : Int → Option Nat
  createCompatibleDC : Nat → Option Nat
  createDIBSection : Nat → BITMAPINFO → Option (Nat × Nat)
  bitBlt : Nat → Int → Int → Int → Int → Nat → Int → Int → Bool

/-- The `bitmap_info` literal built by `CaptureManager::new`: `biSize` is
`size_of::<BITMAPINFOHEADER>()` (40), `biWidth` is `wh.0`, `biHeight` is
`wh.1 * -1`, 24 bits per pixel, `BI_RGB`, one plane, every other field zero,
and a single zeroed `RGBQUAD` in `bmiColors`. -/
def mkBitmapInfo (wh : Int × Int) : BITMAPINFO :=
  { bmiHeader :=
      { biSize := 40
        biWidth := wh.1
        biHeight := i32_mul wh.2 (-1)
        biPlanes := 1
        biBitCount := 24
        biCompression := BI_RGB
        biSizeImage := 0
        biXPelsPerMeter := 0
        biYPelsPerMeter := 0
        biClrUsed := 0
        biClrImportant := 0 }
    bmiColors := { rgbBlue := 0, rgbGreen := 0, rgbRed := 0, rgbReserved := 0 } }

/-- `CaptureManager::new(window_handle, top_left, wh)`: `GetDC`, invalidity
check, `CreateCompatibleDC`, invalidity check, then the struct literal with
`mkBitmapInfo`.  Returns the result and the list of GDI calls performed. -/
def CaptureManager.new (os : OS) (window_handle : Int) (top_left wh : Int × Int) :
    Except CaptureError CaptureManager × List GdiCall :=
  match os.getDC window_handle with
  | none => (Except.error CaptureError.acquisition, [GdiCall.getDC window_handle])
  | some dc =>
    match os.createCompatibleDC dc with
    | none =>
        (Except.error CaptureError.acquisition,
         [GdiCall.getDC window_handle, GdiCall.createCompatibleDC dc])
    | some dc_mem =>
        (Except.ok
          { top_left := top_left
            wh := wh
            dc := dc
            dc_mem := dc_mem
            window_handle := window_handle
            bitmap_info := mkBitmapInfo wh },
         [GdiCall.getDC window_handle, GdiCall.createCompatibleDC dc])

/-- The slice length computed by `capture`:
`(self.wh.0 * self.wh.1 * 3) as usize`, i.e. the wrapping i32 product cast
to usize by sign extension.  It depends only on the stored geometry. -/
def captureLen (wh : Int × Int) : Nat :=
  i32ToUsize (i32_mul (i32_mul wh.1 wh.2) 3)

/-- `CaptureManager::capture()`: `CreateDIBSection` with the stored
`bitmap_info` (its error propagates through `?`), `SelectObject` of the new
bitmap into `dc_mem`, `BitBlt` of the region at `top_left` with extent `wh`
into the origin of `dc_mem`, error if the blit failed, otherwise the
`CaptureData` wrapping `from_raw_parts(bits, (wh.0 * wh.1 * 3) as usize)`
and the bitmap handle.  `capture` takes the manager by immutable reference
in the source and mutates none of its fields. -/
def CaptureManager.capture (self : CaptureManager) (os : OS) :
    Except CaptureError CaptureData × List GdiCall :=
  match os.createDIBSection self.dc self.bitmap_info with
  | none =>
      (Except.error CaptureError.allocation,
       [GdiCall.createDIBSection self.dc self.bitmap_info])
  | some (hbitmap, bits) =>
      if os.bitBlt self.dc_mem 0 0 self.wh.1 self.wh.2 self.dc
          self.top_left.1 self.top_left.2 then
        (Except.ok { bits := { ptr := bits, len := captureLen self.wh }, hbitmap := hbitmap },
         [GdiCall.createDIBSection self.dc self.bitmap_info,
          GdiCall.selectObject self.dc_mem hbitmap,
          GdiCall.bitBlt self.dc_mem 0 0 self.wh.1 self.wh.2 self.dc
            self.top_left.1 self.top_left.2])
      else
        (Except.error CaptureError.copy,
         [GdiCall.createDIBSection self.dc self.bitmap_info,
          GdiCall.selectObject self.dc_mem hbitmap,
          GdiCall.bitBlt self.dc_mem 0 0 self.wh.1 self.wh.2 self.dc
            self.top_left.1 self.top_left.2])

/-- `CaptureManager::change_size(top_left, wh)`: assigns `wh`, then
`top_left`, then writes `wh.0` into `bmiHeader.biHeight` (the dead write of
the source), then overwrites that field with `wh.1 * -1`.  Pure state
mutation, no OS call. -/
def CaptureManager.change_size (self : CaptureManager) (top_left wh : Int × Int) :
    CaptureManager :=
  let s1 := { self with wh := wh }
  let s2 := { s1 with top_left := top_left }
  let s3 := { s2 with bitmap_info.bmiHeader.biHeight := wh.1 }
  { s3 with bitmap_info.bmiHeader.biHeight := i32_mul wh.2 (-1) }

/-- Modelled from the words of the spec for the refinement claim: the
variant of `change_size` with the dead write removed, which only ever
derives the format height as the negation of the requested region height. -/
def change_size_spec (self : CaptureManager) (top_left wh : Int × Int) :
    CaptureManager :=
  { self with
      wh := wh
      top_left := top_left
      bitmap_info.bmiHeader.biHeight := i32_mul wh.2 (-1) }

/-- `Drop for CaptureData`: one `DeleteObject` of the owned bitmap. -/
def CaptureData.drop (d : CaptureData) : List GdiCall :=
  [GdiCall.deleteObject d.hbitmap]

/-- `Drop for CaptureManager`: `ReleaseDC` of the window DC then `DeleteDC`
of the memory DC. -/
def CaptureManager.drop (m : CaptureManager) : List GdiCall :=
  [GdiCall.releaseDC m.window_handle m.dc, GdiCall.deleteDC m.dc_mem]

/-- Whether a GDI call trace releases the window DC `dcv`. -/
def tracesReleaseOfDC (tr : List GdiCall) (dcv : Nat) : Bool :=
  tr.any fun c =>
    match c with
    | GdiCall.releaseDC _ d => d == dcv
    | _ => false

/-- An oracle on which every GDI primitive succeeds, with handle values
1 (window DC), 2 (memory DC), 3 (bitmap) and 4 (pixel pointer). -/
def osAllOk : OS :=
  { getDC := fun _ => some 1
    createCompatibleDC := fun _ => some 2
    createDIBSection := fun _ _ => some (3, 4)
    bitBlt := fun _ _ _ _ _ _ _ _ => true }

/-- An oracle on which `GetDC` yields handle 7 but `CreateCompatibleDC`
fails. -/
def osNoMemDC : OS :=
  { getDC := fun _ => some 7
    createCompatibleDC := fun _ => none
    createDIBSection := fun _ _ => none
    bitBlt := fun _ _ _ _ _ _ _ _ => false }

/-- An oracle on which acquisition and allocation succeed but the block
copy fails, as when the captured window was closed after construction. -/
def osBlitFail : OS :=
  { getDC := fun _ => some 1
    createCompatibleDC := fun _ => some 2
    createDIBSection := fun _ _ => some (3, 4)
    bitBlt := fun _ _ _ _ _ _ _ _ => false }

/-- The manager a successful `new` on `osAllOk` builds for the given origin
and extent: window handle 0, DC handles 1 and 2, and the format descriptor
derived from the extent. -/
def mgr (tl wh : Int × Int) : CaptureManager :=
  { top_left := tl, wh := wh, dc := 1, dc_mem := 2, window_handle := 0,
    bitmap_info := mkBitmapInfo wh }

/-! Helper lemmas shared by the claim theorems. -/

lemma wrap32_lb (x : Int) : -2147483648 ≤ wrap32 x := by
  unfold wrap32; omega

lemma wrap32_ub (x : Int) : wrap32 x < 2147483648 := by
  unfold wrap32; omega

lemma wrap32_eq_self {x : Int} (h0 : -2147483648 ≤ x) (h1 : x < 2147483648) :
    wrap32 x = x := by
  unfold wrap32; omega

lemma change_size_eq_spec_fun (m : CaptureManager) (tl wh : Int × Int) :
    m.change_size tl wh = change_size_spec m tl wh := rfl

lemma i32ToUsize_nonneg {x : Int} (h0 : 0 ≤ x) (h1 : x < 18446744073709551616) :
    (i32ToUsize x : Int) = x := by
  unfold i32ToUsize; omega

lemma captureLen_eq_exact (w h : Int) (h0 : 0 ≤ w * h * 3)
    (h1 : w * h * 3 < 2147483648) : (captureLen (w, h) : Int) = w * h * 3 := by
  have hq1 : wrap32 (w * h) = w * h := wrap32_eq_self (by omega) (by omega)
  have hq2 : wrap32 (w * h * 3) = w * h * 3 := wrap32_eq_self (by omega) (by omega)
  show (i32ToUsize (wrap32 (wrap32 (w * h) * 3)) : Int) = w * h * 3
  rw [hq1, hq2]
  exact i32ToUsize_nonneg (by omega) (by omega)

lemma captureLen_neg (w h : Int) (hneg : i32_mul (i32_mul w h) 3 < 0) :
    9223372036854775808 ≤ captureLen (w, h) ∧ captureLen (w, h) ≠ 0 := by
  have hb : -2147483648 ≤ i32_mul (i32_mul w h) 3 := wrap32_lb _
  have key : ∀ q : Int, -2147483648 ≤ q → q < 0 →
      9223372036854775808 ≤ i32ToUsize q ∧ i32ToUsize q ≠ 0 := by
    intro q hq0 hq1
    unfold i32ToUsize
    omega
  exact key _ hb hneg

lemma capture_fst_ok_iff (m : CaptureManager) (os : OS) (d : CaptureData) :
    (m.capture os).1 = Except.ok d ↔
      ∃ hb p, os.createDIBSection m.dc m.bitmap_info = some (hb, p) ∧
        os.bitBlt m.dc_mem 0 0 m.wh.1 m.wh.2 m.dc m.top_left.1 m.top_left.2 = true ∧
        d = { bits := { ptr := p, len := captureLen m.wh }, hbitmap := hb } := by
  unfold CaptureManager.capture
  cases hdib : os.createDIBSection m.dc m.bitmap_info with
  | none => simp
  | some pr =>
    obtain ⟨hb, p⟩ := pr
    cases hblit : os.bitBlt m.dc_mem 0 0 m.wh.1 m.wh.2 m.dc m.top_left.1 m.top_left.2 with
    | false => simp [hblit]
    | true =>
      simp [hblit]
      constructor
      · rintro rfl
        exact ⟨hb, p, ⟨rfl, rfl⟩, rfl⟩
      · rintro ⟨hb2, p2, ⟨rfl, rfl⟩, hd⟩
        exact hd.symm

lemma capture_fst_err_iff (m : CaptureManager) (os : OS) :
    (∃ e, (m.capture os).1 = Except.error e) ↔
      (os.createDIBSection m.dc m.bitmap_info = none ∨
        ∃ hb p, os.createDIBSection m.dc m.bitmap_info = some (hb, p) ∧
          os.bitBlt m.dc_mem 0 0 m.wh.1 m.wh.2 m.dc m.top_left.1 m.top_left.2 = false) := by
  unfold CaptureManager.capture
  cases hdib : os.createDIBSection m.dc m.bitmap_info with
  | none => simp
  | some pr =>
    obtain ⟨hb, p⟩ := pr
    cases hblit : os.bitBlt m.dc_mem 0 0 m.wh.1 m.wh.2 m.dc m.top_left.1 m.top_left.2 with
    | false => simp [hblit]
    | true => simp [hblit]

lemma new_fst_ok_iff (os : OS) (hwnd : Int) (tl wh : Int × Int) (m : CaptureManager) :
    (CaptureManager.new os hwnd tl wh).1 = Except.ok m ↔
      ∃ dc dcm, os.getDC hwnd = some dc ∧ os.createCompatibleDC dc = some dcm ∧
        m = { top_left := tl, wh := wh, dc := dc, dc_mem := dcm,
              window_handle := hwnd, bitmap_info := mkBitmapInfo wh } := by
  unfold CaptureManager.new
  cases hg : os.getDC hwnd with
  | none => simp
  | some dc =>
    cases hc : os.createCompatibleDC dc with
    | none => simp [hc]
    | some dcm =>
      simp [hc]
      exact eq_comm

lemma new_fst_err_iff (os : OS) (hwnd : Int) (tl wh : Int × Int) :
    (∃ e, (CaptureManager.new os hwnd tl wh).1 = Except.error e) ↔
      (os.getDC hwnd = none ∨
        ∃ dc, os.getDC hwnd = some dc ∧ os.createCompatibleDC dc = none) := by
  unfold CaptureManager.new
  cases hg : os.getDC hwnd with
  | none => simp
  | some dc =>
    cases hc : os.createCompatibleDC dc with
    | none => simp [hc]
    | some dcm => simp [hc]

lemma capture_trace_no_delete (m : CaptureManager) (os : OS) (h2 : Nat) :
    GdiCall.deleteObject h2 ∉ (m.capture os).2 := by
  unfold CaptureManager.capture
  cases hdib : os.createDIBSection m.dc m.bitmap_info with
  | none => simp
  | some pr =>
    obtain ⟨hb, p⟩ := pr
    cases hblit : os.bitBlt m.dc_mem 0 0 m.wh.1 m.wh.2 m.dc m.top_left.1 m.top_left.2 with
    | false => simp [hblit]
    | true => simp [hblit]

lemma new_trace_no_delete (os : OS) (hwnd : Int) (tl wh : Int × Int) (h2 : Nat) :
    GdiCall.deleteObject h2 ∉ (CaptureManager.new os hwnd tl wh).2 := by
  unfold CaptureManager.new
  cases hg : os.getDC hwnd with
  | none => simp
  | some dc =>
    cases hc : os.createCompatibleDC dc with
    | none => simp [hc]
    | some dcm => simp [hc]

@[simp] lemma change_size_wh (m : CaptureManager) (tl wh : Int × Int) :
    (m.change_size tl wh).wh = wh := rfl

@[simp] lemma change_size_top_left (m : CaptureManager) (tl wh : Int × Int) :
    (m.change_size tl wh).top_left = tl := rfl

@[simp] lemma change_size_dc (m : CaptureManager) (tl wh : Int × Int) :
    (m.change_size tl wh).dc = m.dc := rfl

@[simp] lemma change_size_dc_mem (m : CaptureManager) (tl wh : Int × Int) :
    (m.change_size tl wh).dc_mem = m.dc_mem := rfl

lemma capture_trace_of_ok (m : CaptureManager) (os : OS) (d : CaptureData)
    (hcap : (m.capture os).1 = Except.ok d) :
    (m.capture os).2 =
      [GdiCall.createDIBSection m.dc m.bitmap_info,
       GdiCall.selectObject m.dc_mem d.hbitmap,
       GdiCall.bitBlt m.dc_mem 0 0 m.wh.1 m.wh.2 m.dc m.top_left.1 m.top_left.2] := by
  obtain ⟨hb, p, hdib, hblit, rfl⟩ := (capture_fst_ok_iff m os d).1 hcap
  unfold CaptureManager.capture
  rw [hdib]
  simp [hblit]

lemma change_size_biWidth (m : CaptureManager) (tl wh : Int × Int) :
    (m.change_size tl wh).bitmap_info.bmiHeader.biWidth
      = m.bitmap_info.bmiHeader.biWidth := rfl

lemma foldl_change_size_biWidth
    (calls : List ((Int × Int) × (Int × Int))) (m : CaptureManager) :
    (calls.foldl (fun s c => s.change_size c.1 c.2) m).bitmap_info.bmiHeader.biWidth
      = m.bitmap_info.bmiHeader.biWidth := by
  induction calls generalizing m with
  | nil => rfl
  | cons c cs ih =>
    rw [List.foldl_cons, ih, change_size_biWidth]

/-! The claim theorems. -/

/-- C1 (amended): for every successful `capture()` call the returned slice
length is the 32-bit wrapping product `wh.0 * wh.1 * 3` cast to usize, so
whenever `0 ≤ width * height * 3 < 2^31` it equals
`region_size.width * region_size.height * 3` exactly; and because `capture`
takes the manager by immutable reference, every successful capture of the
same manager returns the same length, independent of how many captures were
performed before. -/
theorem capture_length_of_successful_capture (os : OS) (m : CaptureManager)
    (d : CaptureData)
    (hcap : (m.capture os).1 = Except.ok d)
    (h0 : 0 ≤ m.wh.1 * m.wh.2 * 3) (h1 : m.wh.1 * m.wh.2 * 3 < 2147483648) :
    (d.bits.len : Int) = m.wh.1 * m.wh.2 * 3 ∧
      ∀ os2 d2, (m.capture os2).1 = Except.ok d2 → d2.bits.len = d.bits.len := by
  obtain ⟨hb, p, hdib, hblit, rfl⟩ := (capture_fst_ok_iff m os d).1 hcap
  constructor
  · exact captureLen_eq_exact m.wh.1 m.wh.2 h0 h1
  · intro os2 d2 hcap2
    obtain ⟨hb2, p2, hdib2, hblit2, rfl⟩ := (capture_fst_ok_iff m os2 d2).1 hcap2
    rfl

/-- C1 witness: a manager with extent (10, 10) whose capture succeeded
returned a slice of 300 = 10 * 10 * 3 bytes. -/
theorem capture_length_of_successful_capture_witness :
    ((⟨⟨4, 300⟩, 3⟩ : CaptureData).bits.len : Int)
      = (mgr (0, 0) (10, 10)).wh.1 * (mgr (0, 0) (10, 10)).wh.2 * 3 := by
  have h := capture_length_of_successful_capture osAllOk (mgr (0, 0) (10, 10))
    ⟨⟨4, 300⟩, 3⟩ rfl (by decide) (by decide)
  exact h.1

/-- C1 counterexample: for the manager built by `new` with the positive
extent (2000, 400000) a successful capture claims a slice of
18446744071814584320 bytes, because the i32 product 2400000000 wraps to
-1894967296 and is then sign-extended by the usize cast; the claimed
`2000 * 400000 * 3 = 2400000000` is not the returned length. -/
theorem capture_length_of_successful_capture_cex :
    (CaptureManager.new osAllOk 0 (0, 0) (2000, 400000)).1
        = Except.ok (mgr (0, 0) (2000, 400000)) ∧
    ((mgr (0, 0) (2000, 400000)).capture osAllOk).1
        = Except.ok { bits := { ptr := 4, len := 18446744071814584320 }, hbitmap := 3 } ∧
    ¬((18446744071814584320 : Int) = 2000 * 400000 * 3) :=
  ⟨rfl, rfl, by decide⟩

/-- C2: the code violates the claimed invariant.  After
`new(0, (0,0), (2,3))` followed by `change_size((0,0), (5,7))`, the format
descriptor still encodes width 2 while `region_size.width` is 5 at the
moment `capture()` would be invoked; only the height field (-7) tracked the
geometry, because `change_size` never writes `biWidth`. -/
theorem change_size_desyncs_format_width :
    ((CaptureManager.new osAllOk 0 (0, 0) (2, 3)).1.toOption.map
        (fun m0 => ((m0.change_size (0, 0) (5, 7)).bitmap_info.bmiHeader.biWidth,
                    (m0.change_size (0, 0) (5, 7)).wh.1,
                    (m0.change_size (0, 0) (5, 7)).bitmap_info.bmiHeader.biHeight)))
      = some (2, 5, -7) ∧ (2 : Int) ≠ 5 :=
  ⟨rfl, by decide⟩

/-- C3: `change_size` updates exactly `top_left`, `wh` and the format
height field and leaves every other manager field unchanged; in particular
`bitmap_info.bmiHeader.biWidth` is untouched, so after any sequence of
`change_size` calls on a manager built by `new` it still holds the width
passed to `new`, regardless of the widths passed since. -/
theorem change_size_frame_effect (m : CaptureManager) (tl wh : Int × Int)
    (os : OS) (hwnd : Int) (tl0 wh0 : Int × Int) :
    ((m.change_size tl wh).top_left = tl ∧
     (m.change_size tl wh).wh = wh ∧
     (m.change_size tl wh).bitmap_info.bmiHeader.biHeight = i32_mul wh.2 (-1) ∧
     (m.change_size tl wh).dc = m.dc ∧
     (m.change_size tl wh).dc_mem = m.dc_mem ∧
     (m.change_size tl wh).window_handle = m.window_handle ∧
     (m.change_size tl wh).bitmap_info.bmiHeader.biWidth
        = m.bitmap_info.bmiHeader.biWidth ∧
     (m.change_size tl wh).bitmap_info.bmiHeader.biSize
        = m.bitmap_info.bmiHeader.biSize ∧
     (m.change_size tl wh).bitmap_info.bmiHeader.biPlanes
        = m.bitmap_info.bmiHeader.biPlanes ∧
     (m.change_size tl wh).bitmap_info.bmiHeader.biBitCount
        = m.bitmap_info.bmiHeader.biBitCount ∧
     (m.change_size tl wh).bitmap_info.bmiHeader.biCompression
        = m.bitmap_info.bmiHeader.biCompression ∧
     (m.change_size tl wh).bitmap_info.bmiHeader.biSizeImage
        = m.bitmap_info.bmiHeader.biSizeImage ∧
     (m.change_size tl wh).bitmap_info.bmiHeader.biXPelsPerMeter
        = m.bitmap_info.bmiHeader.biXPelsPerMeter ∧
     (m.change_size tl wh).bitmap_info.bmiHeader.biYPelsPerMeter
        = m.bitmap_info.bmiHeader.biYPelsPerMeter ∧
     (m.change_size tl wh).bitmap_info.bmiHeader.biClrUsed
        = m.bitmap_info.bmiHeader.biClrUsed ∧
     (m.change_size tl wh).bitmap_info.bmiHeader.biClrImportant
        = m.bitmap_info.bmiHeader.biClrImportant ∧
     (m.change_size tl wh).bitmap_info.bmiColors = m.bitmap_info.bmiColors) ∧
    (∀ m0, (CaptureManager.new os hwnd tl0 wh0).1 = Except.ok m0 →
      ∀ calls : List ((Int × Int) × (Int × Int)),
        (calls.foldl (fun s c => s.change_size c.1 c.2) m0).bitmap_info.bmiHeader.biWidth
          = wh0.1) := by
  refine ⟨⟨rfl, rfl, rfl, rfl, rfl, rfl, rfl, rfl, rfl, rfl, rfl, rfl, rfl, rfl,
    rfl, rfl, rfl⟩, ?_⟩
  intro m0 hnew calls
  obtain ⟨dc, dcm, hg, hc, rfl⟩ := (new_fst_ok_iff os hwnd tl0 wh0 m0).1 hnew
  rw [foldl_change_size_biWidth]
  rfl

/-- C3 witness: a manager built by `new` with width 2 still encodes format
width 2 after a `change_size` to width 9. -/
theorem change_size_frame_effect_witness :
    (([((0, 0), (9, 9))] : List ((Int × Int) × (Int × Int))).foldl
        (fun s c => s.change_size c.1 c.2)
        (mgr (0, 0) (2, 3))).bitmap_info.bmiHeader.biWidth = 2 := by
  have h := (change_size_frame_effect (mgr (0, 0) (2, 3)) (0, 0) (9, 9)
    osAllOk 0 (0, 0) (2, 3)).2 (mgr (0, 0) (2, 3)) rfl [((0, 0), (9, 9))]
  exact h

/-- C4 (amended): `change_size(tl, (w, h))` followed by a successful
`capture()` yields a slice whose length is the 32-bit wrapping product
`w * h * 3` cast to usize, regardless of the previous geometry; whenever
`0 ≤ w * h * 3 < 2^31` this is exactly `w * h * 3`.  The capture blits from
the new origin with the new extent, and `change_size` is embedded as a
total pure state function (it cannot fail and performs no GDI call). -/
theorem change_size_then_capture_length (os : OS) (m : CaptureManager)
    (tl : Int × Int) (w h : Int) (d : CaptureData)
    (hcap : ((m.change_size tl (w, h)).capture os).1 = Except.ok d) :
    d.bits.len = captureLen (w, h) ∧
    (0 ≤ w * h * 3 → w * h * 3 < 2147483648 → (d.bits.len : Int) = w * h * 3) ∧
    GdiCall.bitBlt m.dc_mem 0 0 w h m.dc tl.1 tl.2
      ∈ ((m.change_size tl (w, h)).capture os).2 ∧
    (m.change_size tl (w, h)).wh = (w, h) ∧
    (m.change_size tl (w, h)).top_left = tl := by
  have htr := capture_trace_of_ok _ os d hcap
  obtain ⟨hb, p, hdib, hblit, rfl⟩ := (capture_fst_ok_iff _ os d).1 hcap
  refine ⟨rfl, ?_, ?_, rfl, rfl⟩
  · intro h0 h1
    exact captureLen_eq_exact w h h0 h1
  · rw [htr]
    simp

/-- C4 witness: after reconfiguring to extent (2, 2) a successful capture
returned 12 = 2 * 2 * 3 bytes even though the manager was built with extent
(10, 10). -/
theorem change_size_then_capture_length_witness :
    ((⟨⟨4, 12⟩, 3⟩ : CaptureData).bits.len : Int) = 2 * 2 * 3 := by
  have h := change_size_then_capture_length osAllOk (mgr (0, 0) (10, 10))
    (1, 1) 2 2 ⟨⟨4, 12⟩, 3⟩ rfl
  exact h.2.1 (by decide) (by decide)

/-- C4 counterexample: after `change_size((0,0), (100000, 100000))` a
successful capture claims a slice of 18446744073644780544 bytes, not
`100000 * 100000 * 3 = 30000000000`: the i32 product wraps to -64771072 and
the usize cast sign-extends it. -/
theorem change_size_then_capture_length_cex :
    (((mgr (0, 0) (10, 10)).change_size (0, 0) (100000, 100000)).capture osAllOk).1
        = Except.ok { bits := { ptr := 4, len := 18446744073644780544 }, hbitmap := 3 } ∧
    ¬((18446744073644780544 : Int) = 100000 * 100000 * 3) :=
  ⟨rfl, by decide⟩

/-- C5: every manager a successful `new(target, top_left, (w, h))` returns
carries the fixed descriptor: 24 bits per pixel, `BI_RGB` (uncompressed),
one color plane, width field `w`, height field `w.1 * -1` (the i32 negation
of `h`, hence exactly `-h` for every representable negation, encoding
top-down rows), and a single zeroed `RGBQUAD` instead of RGBA masks. -/
theorem new_pixel_format_fields (os : OS) (hwnd : Int) (tl wh : Int × Int)
    (m : CaptureManager)
    (hnew : (CaptureManager.new os hwnd tl wh).1 = Except.ok m) :
    m.bitmap_info.bmiHeader.biBitCount = 24 ∧
    m.bitmap_info.bmiHeader.biCompression = BI_RGB ∧
    m.bitmap_info.bmiHeader.biPlanes = 1 ∧
    m.bitmap_info.bmiHeader.biWidth = wh.1 ∧
    m.bitmap_info.bmiHeader.biHeight = i32_mul wh.2 (-1) ∧
    (-2147483648 < wh.2 → wh.2 < 2147483648 →
      m.bitmap_info.bmiHeader.biHeight = -wh.2) ∧
    m.bitmap_info.bmiColors
      = { rgbBlue := 0, rgbGreen := 0, rgbRed := 0, rgbReserved := 0 } := by
  obtain ⟨dc, dcm, hg, hc, rfl⟩ := (new_fst_ok_iff os hwnd tl wh m).1 hnew
  refine ⟨rfl, rfl, rfl, rfl, rfl, ?_, rfl⟩
  intro hlo hhi
  show i32_mul wh.2 (-1) = -wh.2
  unfold i32_mul
  rw [show wh.2 * (-1) = -wh.2 by ring]
  exact wrap32_eq_self (by omega) (by omega)

/-- C5 witness: the manager built by `new` with extent (6, 4) encodes
height -4 and 24 bits per pixel. -/
theorem new_pixel_format_fields_witness :
    (mgr (0, 0) (6, 4)).bitmap_info.bmiHeader.biHeight = -4 ∧
    (mgr (0, 0) (6, 4)).bitmap_info.bmiHeader.biBitCount = 24 := by
  have h := new_pixel_format_fields osAllOk 0 (0, 0) (6, 4) (mgr (0, 0) (6, 4)) rfl
  exact ⟨h.2.2.2.2.2.1 (by decide) (by decide), h.1⟩

/-- C6: `new` returns an error exactly when `GetDC` or
`CreateCompatibleDC` fails, `capture` returns an error exactly when
`CreateDIBSection` or `BitBlt` fails, and an error result is never also an
`ok` carrying a buffer, so no (partial) buffer reaches the caller on any
failure; each primitive is consulted once, with no retry. -/
theorem error_exactly_when_os_call_fails (os : OS) (hwnd : Int)
    (tl wh : Int × Int) (m : CaptureManager) :
    ((∃ e, (CaptureManager.new os hwnd tl wh).1 = Except.error e) ↔
      (os.getDC hwnd = none ∨
        ∃ dc, os.getDC hwnd = some dc ∧ os.createCompatibleDC dc = none)) ∧
    ((∃ e, (m.capture os).1 = Except.error e) ↔
      (os.createDIBSection m.dc m.bitmap_info = none ∨
        ∃ hb p, os.createDIBSection m.dc m.bitmap_info = some (hb, p) ∧
          os.bitBlt m.dc_mem 0 0 m.wh.1 m.wh.2 m.dc m.top_left.1 m.top_left.2
            = false)) ∧
    (∀ e, (m.capture os).1 = Except.error e →
      ∀ d, (m.capture os).1 ≠ Except.ok d) ∧
    (∀ e, (CaptureManager.new os hwnd tl wh).1 = Except.error e →
      ∀ m2, (CaptureManager.new os hwnd tl wh).1 ≠ Except.ok m2) :=
  ⟨new_fst_err_iff os hwnd tl wh, capture_fst_err_iff m os,
   fun _ he d hd => by rw [he] at hd; exact Except.noConfusion hd,
   fun _ he m2 hm2 => by rw [he] at hm2; exact Except.noConfusion hm2⟩

/-- C6 witness: when `CreateCompatibleDC` fails, `new` returns an error. -/
theorem error_exactly_when_os_call_fails_witness :
    ∃ e, (CaptureManager.new osNoMemDC 0 (0, 0) (1, 1)).1 = Except.error e := by
  have h := (error_exactly_when_os_call_fails osNoMemDC 0 (0, 0) (1, 1)
    (mgr (0, 0) (1, 1))).1
  exact h.2 (Or.inr ⟨7, rfl, rfl⟩)

/-- C7 counterexample: on an oracle where `GetDC` yields the live DC 7 and
`CreateCompatibleDC` then fails, `new` returns the error having performed
only the two acquisition calls and no `ReleaseDC` of 7: the source surface
acquired before the failing step is not released before the error is
returned, contradicting the claim. -/
theorem new_failure_release_behavior_cex :
    (CaptureManager.new osNoMemDC 0 (0, 0) (4, 4)).1
        = Except.error CaptureError.acquisition ∧
    osNoMemDC.getDC 0 = some 7 ∧
    (CaptureManager.new osNoMemDC 0 (0, 0) (4, 4)).2
        = [GdiCall.getDC 0, GdiCall.createCompatibleDC 7] ∧
    tracesReleaseOfDC (CaptureManager.new osNoMemDC 0 (0, 0) (4, 4)).2 7 = false :=
  ⟨rfl, rfl, rfl, rfl⟩

/-- C7 (amended): if `new` fails at the first step (`GetDC`, the dead
target case) it has acquired nothing, so nothing leaks and in particular no
in-memory surface was created; but if `CreateCompatibleDC` fails after
`GetDC` succeeded, `new` returns the error with the acquired source DC
unreleased (its trace contains no `ReleaseDC`), so that DC leaks on this
exit path. -/
theorem new_failure_release_behavior (os : OS) (hwnd : Int) (tl wh : Int × Int) :
    (os.getDC hwnd = none →
      (CaptureManager.new os hwnd tl wh).1 = Except.error CaptureError.acquisition ∧
      (CaptureManager.new os hwnd tl wh).2 = [GdiCall.getDC hwnd]) ∧
    (∀ dc, os.getDC hwnd = some dc → os.createCompatibleDC dc = none →
      (CaptureManager.new os hwnd tl wh).1 = Except.error CaptureError.acquisition ∧
      (CaptureManager.new os hwnd tl wh).2
          = [GdiCall.getDC hwnd, GdiCall.createCompatibleDC dc] ∧
      tracesReleaseOfDC (CaptureManager.new os hwnd tl wh).2 dc = false) := by
  constructor
  · intro hg
    unfold CaptureManager.new
    rw [hg]
    exact ⟨rfl, rfl⟩
  · intro dc hg hc
    unfold CaptureManager.new
    simp only [hg, hc]
    exact ⟨trivial, trivial, rfl⟩

/-- C7 witness: with `GetDC` succeeding and `CreateCompatibleDC` failing,
the trace of `new` contains no release of the acquired DC 7. -/
theorem new_failure_release_behavior_witness :
    tracesReleaseOfDC (CaptureManager.new osNoMemDC 1 (0, 0) (4, 4)).2 7 = false := by
  have h := (new_failure_release_behavior osNoMemDC 1 (0, 0) (4, 4)).2 7 rfl rfl
  exact h.2.2

/-- C8: `change_size` equals, as a state transformer, the variant with the
intermediate write of the width into the format height field removed; hence
`capture()` behaves identically after either, the intermediate value is
never observable, and after `change_size(tl, (w, h))` the format height is
exactly the negation of `h` (for every `h` whose i32 negation does not
overflow). -/
theorem change_size_equiv_no_dead_write (m : CaptureManager)
    (tl wh : Int × Int) (os : OS) :
    m.change_size tl wh = change_size_spec m tl wh ∧
    (m.change_size tl wh).capture os = (change_size_spec m tl wh).capture os ∧
    (-2147483648 < wh.2 → wh.2 < 2147483648 →
      (m.change_size tl wh).bitmap_info.bmiHeader.biHeight = -wh.2) := by
  refine ⟨change_size_eq_spec_fun m tl wh, by rw [change_size_eq_spec_fun], ?_⟩
  intro hlo hhi
  show i32_mul wh.2 (-1) = -wh.2
  unfold i32_mul
  rw [show wh.2 * (-1) = -wh.2 by ring]
  exact wrap32_eq_self (by omega) (by omega)

/-- C8 witness: after `change_size((1,1), (5,6))` the format height field
is -6. -/
theorem change_size_equiv_no_dead_write_witness :
    ((mgr (0, 0) (3, 4)).change_size (1, 1) (5, 6)).bitmap_info.bmiHeader.biHeight
      = -6 := by
  have h := change_size_equiv_no_dead_write (mgr (0, 0) (3, 4)) (1, 1) (5, 6) osAllOk
  exact h.2.2 (by decide) (by decide)

/-- C9: when the blit fails after `CreateDIBSection` succeeded and the
bitmap was selected into the work surface, `capture` returns the copy error
having performed no `DeleteObject`; moreover no trace of `new`, `capture`
or the manager teardown ever contains a `DeleteObject`, which is performed
exactly by the `CaptureData` drop on its own bitmap — and a failed capture
constructs no `CaptureData`, so its bitmap is never released by this
component. -/
theorem failed_copy_leaks_bitmap (os : OS) (m : CaptureManager) (hb p : Nat) :
    (os.createDIBSection m.dc m.bitmap_info = some (hb, p) →
      os.bitBlt m.dc_mem 0 0 m.wh.1 m.wh.2 m.dc m.top_left.1 m.top_left.2 = false →
      (m.capture os).1 = Except.error CaptureError.copy ∧
      GdiCall.selectObject m.dc_mem hb ∈ (m.capture os).2) ∧
    (∀ h2, GdiCall.deleteObject h2 ∉ (m.capture os).2) ∧
    (∀ hwnd tl wh h2, GdiCall.deleteObject h2 ∉ (CaptureManager.new os hwnd tl wh).2) ∧
    (∀ h2, GdiCall.deleteObject h2 ∉ m.drop) ∧
    (∀ d : CaptureData, d.drop = [GdiCall.deleteObject d.hbitmap]) := by
  refine ⟨?_, capture_trace_no_delete m os,
    fun hwnd tl wh h2 => new_trace_no_delete os hwnd tl wh h2, ?_, fun d => rfl⟩
  · intro hdib hblit
    constructor
    · simp [CaptureManager.capture, hdib, hblit]
    · simp [CaptureManager.capture, hdib, hblit]
  · intro h2
    simp [CaptureManager.drop]

/-- C9 witness: on an oracle whose blit fails, capture returns the copy
error (and, by the theorem, performs no `DeleteObject`). -/
theorem failed_copy_leaks_bitmap_witness :
    ((mgr (0, 0) (5, 5)).capture osBlitFail).1 = Except.error CaptureError.copy := by
  have h := (failed_copy_leaks_bitmap osBlitFail (mgr (0, 0) (5, 5)) 3 4).1 rfl rfl
  exact h.1

/-- C10: a successful capture always reports the length
`captureLen wh = ((wh.0 * wh.1 * 3 : i32) as usize)`, a function of the
stored geometry alone (the oracle, and with it the allocated bitmap, is
arbitrary); whenever that signed 32-bit product is negative the reported
length is at least 2^63 = 9223372036854775808 and never zero, and the
capture still returns a buffer rather than an error when the OS calls
succeed. -/
theorem negative_product_length_wraps (os : OS) (m : CaptureManager)
    (d : CaptureData) (hb p : Nat) :
    ((m.capture os).1 = Except.ok d → d.bits.len = captureLen m.wh) ∧
    (i32_mul (i32_mul m.wh.1 m.wh.2) 3 < 0 →
      9223372036854775808 ≤ captureLen m.wh ∧ captureLen m.wh ≠ 0) ∧
    (os.createDIBSection m.dc m.bitmap_info = some (hb, p) →
      os.bitBlt m.dc_mem 0 0 m.wh.1 m.wh.2 m.dc m.top_left.1 m.top_left.2 = true →
      (m.capture os).1
        = Except.ok { bits := { ptr := p, len := captureLen m.wh }, hbitmap := hb }) := by
  refine ⟨?_, ?_, ?_⟩
  · intro hcap
    obtain ⟨hb2, p2, hdib, hblit, rfl⟩ := (capture_fst_ok_iff m os d).1 hcap
    rfl
  · intro hneg
    exact captureLen_neg m.wh.1 m.wh.2 hneg
  · intro hdib hblit
    exact (capture_fst_ok_iff m os _).2 ⟨hb, p, hdib, hblit, rfl⟩

/-- C10 witness: for the geometry (-2, 3) the signed product -18 is
negative and the reported length 2^64 - 18 exceeds 2^63 instead of being
zero or an error. -/
theorem negative_product_length_wraps_witness :
    9223372036854775808 ≤ captureLen (mgr (0, 0) (-2, 3)).wh ∧
    captureLen (mgr (0, 0) (-2, 3)).wh ≠ 0 := by
  have h := (negative_product_length_wraps osAllOk (mgr (0, 0) (-2, 3))
    ⟨⟨4, 0⟩, 0⟩ 3 4).2.1
  exact h (by decide)

end Qshot
